import Mathlib

/-!
# ORM row population: `populate_full` of `lib/sqlalchemy/cextension/loader.c`

A shallow embedding of the C function `populate_full` (loader.c, lines 16-173) and of the
Python routine `_populate_full` that the same file carries as its reference (lines 175-207),
followed by the properties of the specification that were checked against them.

Object model.  Values handed around by the routine are built-in Python values (`Val`);
`context` and `state` are plain instances, i.e. attribute dictionaries (`Instance`), for which
reading an absent attribute raises `AttributeError` and assignment always succeeds;
`dict_` is a real `dict` keyed by attribute names; `populators` is a mapping whose five
category keys may each be present or absent and whose sequences hold 2-tuples.
A C call returns either `None` or `NULL` with the error indicator; both, together with the
final `state`, the final `dict_` and the sequence of delegate calls made, form the `Outcome`.
The argument tuple always has its nine items, `populators[...]` values are sequences, and
memory never runs out, so the exits of lines 47-54, 118-120 and 134-138 are not modelled.
-/

namespace Loader

set_option linter.unusedVariables false

/-- Built-in values that flow through the routine. -/
inductive Val where
  | none
  | bool (b : Bool)
  | int (n : Int)
  | str (s : String)
  /-- A set of query options, given by the identifiers of its members. -/
  | opts (members : List Nat)
  /-- An arbitrary object without `__bool__`/`__len__`, known by identity only. -/
  | obj (id : Nat)
  /-- An object whose truth test raises the exception numbered `code`. -/
  | erratic (code : Nat)
  /-- The `state.callables` mapping, kept as the list of its keys: the routine only ever
  stores the owning state itself under a key. -/
  | callables (keys : List String)
  deriving DecidableEq, Repr

/-- The error indicator that accompanies a `NULL` return. -/
inductive Failure where
  | attributeError (name : String)
  | keyError (key : String)
  | typeError
  /-- The function returned `NULL` although no exception was set; the interpreter reports
  this as `SystemError: error return without exception set`. -/
  | systemError
  /-- An exception raised by a delegate or a truth test, identified by a number. -/
  | raised (code : Nat)
  deriving DecidableEq, Repr

/-- A string-keyed dictionary in insertion order. -/
abbrev Dict := List (String × Val)

/-- A plain instance: its attribute dictionary. -/
abbrev Instance := List (String × Val)

/-- A fetched result row. -/
abbrev Row := List (String × Val)

/-- Lookup of key `k`: the value bound to it, if any. -/
def PyDict_GetItem : Dict → String → Option Val
  | [], _ => Option.none
  | (k', v) :: rest, k => if k' = k then some v else PyDict_GetItem rest k

/-- The assignment `d[k] = v`: an existing binding is replaced in place, a new one is
appended. -/
def PyDict_SetItem : Dict → String → Val → Dict
  | [], k, v => [(k, v)]
  | (k', v') :: rest, k, v =>
    if k' = k then (k, v) :: rest else (k', v') :: PyDict_SetItem rest k v

/-- The call `d.pop(k, None)`, result discarded. -/
def dict_pop : Dict → String → Dict
  | [], _ => []
  | (k', v') :: rest, k => if k' = k then rest else (k', v') :: dict_pop rest k

/-- Attribute read: `AttributeError` when the instance has no such attribute. -/
def PyObject_GetAttrString (o : Instance) (name : String) : Except Failure Val :=
  match PyDict_GetItem o name with
  | some v => .ok v
  | Option.none => .error (.attributeError name)

/-- Attribute assignment on a plain instance. -/
def PyObject_SetAttrString (o : Instance) (name : String) (v : Val) : Instance :=
  PyDict_SetItem o name v

/-- Truth test.  `.ok true`, `.ok false` and `.error _` stand for the C results 1, 0, -1. -/
def PyObject_IsTrue : Val → Except Failure Bool
  | .none => .ok false
  | .bool b => .ok b
  | .int n => .ok (decide (n ≠ 0))
  | .str s => .ok (decide (s ≠ ""))
  | .opts members => .ok (!members.isEmpty)
  | .obj _ => .ok true
  | .erratic code => .error (.raised code)
  | .callables keys => .ok (!keys.isEmpty)

/-- A `quick` delegate: called with the row, it returns a value or raises. -/
structure Getter where
  id : Nat
  call : Row → Except Failure Val

/-- What a populator call leaves behind: whether it raised, and the state and the dictionary
as it left them. -/
structure Effect where
  ret : Except Failure Unit
  state : Instance
  dict_ : Dict

/-- A `new`/`delayed`/`existing` delegate, called as `populator(state, dict_, row)`. -/
structure Populator where
  id : Nat
  call : Instance → Dict → Row → Effect

/-- One delegate invocation, with its arguments. -/
inductive CallEvent where
  | getter (id : Nat) (row : Row)
  | populator (id : Nat) (state : Instance) (dict_ : Dict) (row : Row)
  deriving DecidableEq, Repr

/-- The `populators` mapping.  A field is `none` when the category key is absent. -/
structure Populators where
  quick : Option (List (String × Getter))
  expire : Option (List (String × Val))
  new : Option (List (String × Populator))
  delayed : Option (List (String × Populator))
  existing : Option (List (String × Populator))

/-- Result of a call: the returned object or the error, the objects mutated in place as the
call left them, and the delegate calls it made, in order. -/
structure Outcome where
  ret : Except Failure Val
  state : Instance
  dict_ : Dict
  calls : List CallEvent

/-- The log entry of calling the getter of a `quick` pair on `row`. -/
def getterEvent (row : Row) (p : String × Getter) : CallEvent :=
  .getter p.2.id row

/-- Lines 67-112 of `populate_full`: `state.runid`, `state.load_options`, `state.load_path`.
Returns the error of the first failing step, if any, and the state as mutated so far. -/
def populate_full_attrs (context : Instance) (load_path : Val) (state : Instance) :
    Except Failure Unit × Instance :=
  -- state.runid = context.runid
  match PyObject_GetAttrString context "runid" with
  | .error e => (.error e, state)
  | .ok runid =>
    let state := PyObject_SetAttrString state "runid" runid
    -- if context.propagate_options: state.load_options = context.propagate_options
    match PyObject_GetAttrString context "propagate_options" with
    | .error e => (.error e, state)
    | .ok propagate_options =>
      match PyObject_IsTrue propagate_options with
      | .error e => (.error e, state)
      | .ok propagate_options_bool =>
        let state :=
          if propagate_options_bool then
            PyObject_SetAttrString state "load_options" propagate_options
          else state
        -- if state.load_options: state.load_path = load_path
        match PyObject_GetAttrString state "load_options" with
        | .error e => (.error e, state)
        | .ok load_options =>
          match PyObject_IsTrue load_options with
          | .error e => (.error e, state)
          | .ok load_options_bool =>
            if load_options_bool then
              (.ok (), PyObject_SetAttrString state "load_path" load_path)
            else (.ok (), state)

/-- Lines 123-148 of `populate_full`: the loop over the items of `populators["quick"]`.
Every item is a 2-tuple, so the `key == NULL || getter == NULL` exit is never taken; `dict_`
is a dict and its keys are strings, so `PyDict_SetItem`, whose result the loop does not test,
stores the value.  A getter that raises ends the loop at once with its exception. -/
def populate_full_quick (row : Row) :
    List (String × Getter) → Dict → Except Failure Unit × Dict × List CallEvent
  | [], dict_ => (.ok (), dict_, [])
  | (key, getter) :: rest, dict_ =>
    match getter.call row with
    | .error e => (.error e, dict_, [.getter getter.id row])
    | .ok retvalue =>
      -- dict_[key] = getter(row)
      let r := populate_full_quick row rest (PyDict_SetItem dict_ key retvalue)
      (r.1, r.2.1, .getter getter.id row :: r.2.2)

/-- The C function `populate_full` (loader.c, lines 16-173).

`PyDict_GetItemString` returns `NULL` for a missing key without setting an exception, so the
`return NULL` of line 117 leaves the error indicator clear.  After the quick loop the function
falls through to `Py_RETURN_NONE`, and so does its empty `else` block (lines 167-170). -/
def populate_full (context : Instance) (load_path : Val) (row : Row) (state : Instance)
    (dict_ : Dict) (isnew loaded_instance populate_existing : Val)
    (populators : Populators) : Outcome :=
  match PyObject_IsTrue isnew with
  | .error e => ⟨.error e, state, dict_, []⟩
  | .ok true =>
    match populate_full_attrs context load_path state with
    | (.error e, state) => ⟨.error e, state, dict_, []⟩
    | (.ok (), state) =>
      -- for key, getter in populators["quick"]:
      match populators.quick with
      | Option.none => ⟨.error .systemError, state, dict_, []⟩
      | some seq =>
        match populate_full_quick row seq dict_ with
        | (.error e, dict_, calls) => ⟨.error e, state, dict_, calls⟩
        | (.ok (), dict_, calls) => ⟨.ok .none, state, dict_, calls⟩
  | .ok false => ⟨.ok .none, state, dict_, []⟩

/-! ## The reference routine `_populate_full` (loader.c, lines 175-207)

The Python text is transcribed statement by statement in a small interpreter monad: a
computation runs on the objects that the routine mutates in place and on the call log, and
either returns or raises, leaving the objects as they are at that point. -/

/-- The objects mutated in place by the routine, and the log of delegate calls. -/
structure World where
  state : Instance
  dict_ : Dict
  calls : List CallEvent

/-- A Python computation: it returns or raises, and leaves a world behind either way. -/
def Py (α : Type) : Type := World → Except Failure α × World

instance : Monad Py where
  pure a := fun w => (.ok a, w)
  bind m f := fun w =>
    match m w with
    | (.ok a, w1) => f a w1
    | (.error e, w1) => (.error e, w1)

/-- An expression that does not touch the world: it yields its value or raises. -/
def Py.eval {α : Type} (r : Except Failure α) : Py α := fun w => (r, w)

/-- The statement `for x in xs: body(x)`. -/
def Py.forEach {α : Type} : List α → (α → Py Unit) → Py Unit
  | [], _ => pure ()
  | x :: rest, body => do
    body x
    Py.forEach rest body

/-- The expression `populators[name]`, given the looked-up field. -/
def Py.subscript {α : Type} (name : String) : Option α → Py α
  | some seq => pure seq
  | Option.none => Py.eval (.error (.keyError name))

/-- The expression `state.name`. -/
def Py.getState (name : String) : Py Val :=
  fun w => (PyObject_GetAttrString w.state name, w)

/-- The statement `state.name = v`. -/
def Py.setState (name : String) (v : Val) : Py Unit :=
  fun w => (.ok (), { w with state := PyObject_SetAttrString w.state name v })

/-- The statement `dict_[key] = v`. -/
def Py.setItem (key : String) (v : Val) : Py Unit :=
  fun w => (.ok (), { w with dict_ := PyDict_SetItem w.dict_ key v })

/-- The statement `dict_.pop(key, None)`. -/
def Py.popItem (key : String) : Py Unit :=
  fun w => (.ok (), { w with dict_ := dict_pop w.dict_ key })

/-- The expression `getter(row)`. -/
def Py.callGetter (getter : Getter) (row : Row) : Py Val :=
  fun w => (getter.call row, { w with calls := w.calls ++ [.getter getter.id row] })

/-- The statement `populator(state, dict_, row)`. -/
def Py.callPopulator (populator : Populator) (row : Row) : Py Unit :=
  fun w =>
    let eff := populator.call w.state w.dict_ row
    (eff.ret, { state := eff.state, dict_ := eff.dict_,
                calls := w.calls ++ [.populator populator.id w.state w.dict_ row] })

/-- The statement `state.callables[key] = state`. -/
def Py.setCallable (key : String) : Py Unit := do
  match ← Py.getState "callables" with
  | .callables keys =>
    Py.setState "callables" (.callables (if key ∈ keys then keys else keys ++ [key]))
  | _ => Py.eval (.error .typeError)

/-- Lines 181-188 of the reference: the first-sighting branch up to and including the loop
over `populators["quick"]`. -/
def _populate_full_quick (context : Instance) (load_path : Val) (row : Row)
    (populators : Populators) : Py Unit := do
  Py.setState "runid" (← Py.eval (PyObject_GetAttrString context "runid"))
  if ← Py.eval (PyObject_GetAttrString context "propagate_options" >>= PyObject_IsTrue) then
    Py.setState "load_options"
      (← Py.eval (PyObject_GetAttrString context "propagate_options"))
  if ← (do Py.eval (PyObject_IsTrue (← Py.getState "load_options"))) then
    Py.setState "load_path" load_path
  Py.forEach (← Py.subscript "quick" populators.quick) fun (key, getter) => do
    Py.setItem key (← Py.callGetter getter row)

/-- The body of the reference routine `_populate_full` (lines 179-206). -/
def _populate_full_body (context : Instance) (load_path : Val) (row : Row)
    (isnew loaded_instance populate_existing : Val) (populators : Populators) : Py Unit := do
  if ← Py.eval (PyObject_IsTrue isnew) then
    Py.setState "runid" (← Py.eval (PyObject_GetAttrString context "runid"))
    if ← Py.eval (PyObject_GetAttrString context "propagate_options" >>= PyObject_IsTrue) then
      Py.setState "load_options"
        (← Py.eval (PyObject_GetAttrString context "propagate_options"))
    if ← (do Py.eval (PyObject_IsTrue (← Py.getState "load_options"))) then
      Py.setState "load_path" load_path
    Py.forEach (← Py.subscript "quick" populators.quick) fun (key, getter) => do
      Py.setItem key (← Py.callGetter getter row)
    if ← Py.eval (PyObject_IsTrue populate_existing) then
      Py.forEach (← Py.subscript "expire" populators.expire) fun (key, set_callable) => do
        Py.popItem key
        if ← Py.eval (PyObject_IsTrue set_callable) then
          Py.setCallable key
    else
      Py.forEach (← Py.subscript "expire" populators.expire) fun (key, set_callable) => do
        if ← Py.eval (PyObject_IsTrue set_callable) then
          Py.setCallable key
    Py.forEach (← Py.subscript "new" populators.new) fun (_, populator) =>
      Py.callPopulator populator row
    Py.forEach (← Py.subscript "delayed" populators.delayed) fun (_, populator) =>
      Py.callPopulator populator row
  else
    Py.forEach (← Py.subscript "existing" populators.existing) fun (_, populator) =>
      Py.callPopulator populator row

/-- Runs a routine body on `state` and `dict_` with an empty call log; a body that finishes
makes the call return `None`. -/
def Py.run (body : Py Unit) (state : Instance) (dict_ : Dict) : Outcome :=
  match body ⟨state, dict_, []⟩ with
  | (.ok (), w) => ⟨.ok .none, w.state, w.dict_, w.calls⟩
  | (.error e, w) => ⟨.error e, w.state, w.dict_, w.calls⟩

/-- The reference routine `_populate_full` (loader.c, lines 176-206). -/
def _populate_full (context : Instance) (load_path : Val) (row : Row) (state : Instance)
    (dict_ : Dict) (isnew loaded_instance populate_existing : Val)
    (populators : Populators) : Outcome :=
  Py.run (_populate_full_body context load_path row isnew loaded_instance populate_existing
    populators) state dict_

/-! ## Concrete delegates and objects used in the scenarios -/

/-- The getter `lambda r: r[column]`. -/
def columnGetter (id : Nat) (column : String) : Getter :=
  ⟨id, fun r =>
    match PyDict_GetItem r column with
    | some v => .ok v
    | Option.none => .error (.keyError column)⟩

/-- The getter `lambda r: v`. -/
def constGetter (id : Nat) (v : Val) : Getter := ⟨id, fun _ => .ok v⟩

/-- A getter that raises exception `code`. -/
def raisingGetter (id : Nat) (code : Nat) : Getter := ⟨id, fun _ => .error (.raised code)⟩

/-- The populator `def p(state, dict_, row): dict_[key] = v`. -/
def storingPopulator (id : Nat) (key : String) (v : Val) : Populator :=
  ⟨id, fun state dict_ _ => ⟨.ok (), state, PyDict_SetItem dict_ key v⟩⟩

/-- The row `{"a": 42}`. -/
def rowA : Row := [("a", .int 42)]

/-- A context with `runid = 7` and `propagate_options = None`. -/
def contextPlain : Instance := [("runid", .int 7), ("propagate_options", .none)]

/-- A context with `runid = 7` and a non-empty set of options to propagate. -/
def contextOpts : Instance := [("runid", .int 7), ("propagate_options", .opts [1])]

/-- A state of an earlier load: no load options, an old load path, no callables. -/
def stateFresh : Instance :=
  [("runid", .int 3), ("load_options", .opts []), ("load_path", .str "old"),
   ("callables", .callables [])]

/-- A state that already carries load options. -/
def stateWithOptions : Instance :=
  [("runid", .int 3), ("load_options", .opts [5]), ("load_path", .str "old"),
   ("callables", .callables [])]

/-- Populators with the given `quick` list and every other category present and empty. -/
def quickOnly (quick : List (String × Getter)) : Populators :=
  ⟨some quick, some [], some [], some [], some []⟩

/-- A `quick` list that assigns the key `"a"` twice, first 1 and then 2. -/
def quickTwice : List (String × Getter) :=
  [("a", constGetter 1 (.int 1)), ("a", constGetter 2 (.int 2))]


/-- A `quick` list whose third getter raises after the key `"a"` was assigned twice. -/
def quickTwiceThenRaise : List (String × Getter) :=
  [("a", constGetter 1 (.int 1)), ("a", constGetter 2 (.int 2)), ("b", raisingGetter 3 9),
   ("c", constGetter 4 (.int 4))]

/-- Populators whose `quick` getter overwrites the key `"a"`, which `expire` lists too. -/
def quickAndExpireShareKey : Populators :=
  ⟨some [("a", constGetter 1 (.int 2))], some [("a", .bool false)], some [], some [],
   some []⟩

/-- Populators with an empty `quick` list, one `new` and one `delayed` populator. -/
def newAndDelayed : Populators :=
  ⟨some [], some [], some [("n", storingPopulator 1 "n" (.int 1))],
   some [("d", storingPopulator 2 "d" (.int 2))], some []⟩

/-- Populators whose only non-empty list is `existing`, alongside non-empty lists of the
first-sighting categories. -/
def existingOne : Populators :=
  ⟨some [("a", columnGetter 4 "a")], some [("z", .bool true)],
   some [("n", storingPopulator 1 "n" (.int 1))],
   some [("d", storingPopulator 2 "d" (.int 2))],
   some [("e", storingPopulator 3 "e" (.int 3))]⟩

/-- Populators that hold the key `"quick"` only. -/
def quickKeyOnly : Populators :=
  ⟨some [], Option.none, Option.none, Option.none, Option.none⟩

/-- Populators that hold every key except `"quick"`. -/
def quickKeyMissing : Populators :=
  ⟨Option.none, some [], some [], some [], some []⟩

/-! ## Dictionaries and attributes -/

theorem getItem_setItem_same (d : Dict) (k : String) (v : Val) :
    PyDict_GetItem (PyDict_SetItem d k v) k = some v := by
  induction d with
  | nil => simp [PyDict_SetItem, PyDict_GetItem]
  | cons hd tl ih =>
    obtain ⟨k1, v1⟩ := hd
    by_cases h : k1 = k
    · simp [PyDict_SetItem, PyDict_GetItem, h]
    · simp [PyDict_SetItem, PyDict_GetItem, h, ih]

theorem getItem_setItem_other (d : Dict) (k k2 : String) (v : Val) (h : k ≠ k2) :
    PyDict_GetItem (PyDict_SetItem d k v) k2 = PyDict_GetItem d k2 := by
  induction d with
  | nil => simp [PyDict_SetItem, PyDict_GetItem, h]
  | cons hd tl ih =>
    obtain ⟨k1, v1⟩ := hd
    by_cases h1 : k1 = k
    · subst h1
      simp [PyDict_SetItem, PyDict_GetItem, h]
    · by_cases h2 : k1 = k2
      · subst h2
        simp [PyDict_SetItem, PyDict_GetItem, h1]
      · simp [PyDict_SetItem, PyDict_GetItem, h1, h2, ih]

theorem getAttr_setAttr_same (o : Instance) (name : String) (v : Val) :
    PyObject_GetAttrString (PyObject_SetAttrString o name v) name = .ok v := by
  simp [PyObject_GetAttrString, PyObject_SetAttrString, getItem_setItem_same]

theorem getAttr_setAttr_other (o : Instance) (name name2 : String) (v : Val)
    (h : name ≠ name2) :
    PyObject_GetAttrString (PyObject_SetAttrString o name v) name2
      = PyObject_GetAttrString o name2 := by
  simp [PyObject_GetAttrString, PyObject_SetAttrString, getItem_setItem_other _ _ _ _ h]

/-! ## The loop over `populators["quick"]` -/

theorem quick_calls_of_ok (row : Row) (seq : List (String × Getter)) (d : Dict)
    (h : (populate_full_quick row seq d).1 = .ok ()) :
    (populate_full_quick row seq d).2.2 = seq.map (getterEvent row) := by
  induction seq generalizing d with
  | nil => simp [populate_full_quick]
  | cons hd tl ih =>
    obtain ⟨k, g⟩ := hd
    cases hg : g.call row with
    | error e => simp [populate_full_quick, hg] at h
    | ok v =>
      simp only [populate_full_quick, hg] at h ⊢
      simp [ih _ h, getterEvent]

theorem quick_getItem_of_not_key (row : Row) (seq : List (String × Getter)) (d : Dict)
    (k : String) (h : k ∉ seq.map Prod.fst) :
    PyDict_GetItem (populate_full_quick row seq d).2.1 k = PyDict_GetItem d k := by
  induction seq generalizing d with
  | nil => simp [populate_full_quick]
  | cons hd tl ih =>
    obtain ⟨k1, g⟩ := hd
    simp only [List.map_cons, List.mem_cons, not_or] at h
    cases hg : g.call row with
    | error e => simp [populate_full_quick, hg]
    | ok v =>
      simp only [populate_full_quick, hg]
      rw [ih _ h.2, getItem_setItem_other _ _ _ _ (Ne.symm h.1)]

theorem quick_getItem_of_ok (row : Row) (pre post : List (String × Getter)) (k : String)
    (g : Getter) (d : Dict)
    (h : (populate_full_quick row (pre ++ (k, g) :: post) d).1 = .ok ())
    (hk : k ∉ post.map Prod.fst) :
    ∃ v, g.call row = .ok v ∧
      PyDict_GetItem (populate_full_quick row (pre ++ (k, g) :: post) d).2.1 k = some v := by
  induction pre generalizing d with
  | nil =>
    cases hg : g.call row with
    | error e => simp [populate_full_quick, hg] at h
    | ok v =>
      refine ⟨v, rfl, ?_⟩
      simp only [List.nil_append, populate_full_quick, hg]
      rw [quick_getItem_of_not_key _ _ _ _ hk, getItem_setItem_same]
  | cons hd tl ih =>
    obtain ⟨k1, g1⟩ := hd
    cases hg : g1.call row with
    | error e => simp [populate_full_quick, hg] at h
    | ok v =>
      simp only [List.cons_append, populate_full_quick, hg] at h ⊢
      exact ih _ h

/-! ## The call as a whole -/

theorem populate_full_of_isnew (context : Instance) (load_path : Val) (row : Row)
    (state : Instance) (dict_ : Dict) (isnew loaded_instance populate_existing : Val)
    (populators : Populators) (seq : List (String × Getter))
    (hnew : PyObject_IsTrue isnew = .ok true) (hq : populators.quick = some seq)
    (hattrs : (populate_full_attrs context load_path state).1 = .ok ()) :
    populate_full context load_path row state dict_ isnew loaded_instance populate_existing
        populators
      = ⟨(populate_full_quick row seq dict_).1.map (fun _ => Val.none),
         (populate_full_attrs context load_path state).2,
         (populate_full_quick row seq dict_).2.1,
         (populate_full_quick row seq dict_).2.2⟩ := by
  unfold populate_full
  rw [hnew]
  rcases hA : populate_full_attrs context load_path state with ⟨r, st⟩
  rw [hA] at hattrs
  simp only at hattrs
  subst hattrs
  simp only [hq]
  rcases hQ : populate_full_quick row seq dict_ with ⟨r, d, c⟩
  cases r <;> rfl

theorem populate_full_ok_inv (context : Instance) (load_path : Val) (row : Row)
    (state : Instance) (dict_ : Dict) (isnew loaded_instance populate_existing : Val)
    (populators : Populators)
    (hnew : PyObject_IsTrue isnew = .ok true)
    (hok : (populate_full context load_path row state dict_ isnew loaded_instance
      populate_existing populators).ret = .ok .none) :
    (populate_full_attrs context load_path state).1 = .ok () ∧
    ∃ seq, populators.quick = some seq ∧ (populate_full_quick row seq dict_).1 = .ok () := by
  unfold populate_full at hok
  rw [hnew] at hok
  rcases hA : populate_full_attrs context load_path state with ⟨r, st⟩
  rw [hA] at hok
  cases r with
  | error e => simp at hok
  | ok u =>
    refine ⟨rfl, ?_⟩
    cases hq : populators.quick with
    | none => simp [hq] at hok
    | some seq =>
      refine ⟨seq, rfl, ?_⟩
      simp only [hq] at hok
      rcases hQ : populate_full_quick row seq dict_ with ⟨r, d, c⟩
      rw [hQ] at hok
      cases r with
      | error e => simp at hok
      | ok u => rfl

/-! ## Steps 1-3: `runid`, `load_options`, `load_path` -/

theorem populate_full_state_of_isnew (context : Instance) (load_path : Val) (row : Row)
    (state : Instance) (dict_ : Dict) (isnew loaded_instance populate_existing : Val)
    (populators : Populators) (hnew : PyObject_IsTrue isnew = .ok true) :
    (populate_full context load_path row state dict_ isnew loaded_instance
      populate_existing populators).state
      = (populate_full_attrs context load_path state).2 := by
  unfold populate_full
  rw [hnew]
  simp only
  rcases hA : populate_full_attrs context load_path state with ⟨r, st⟩
  cases r with
  | error e => rfl
  | ok u =>
    cases hq : populators.quick with
    | none => rfl
    | some seq =>
      simp only
      rcases hQ : populate_full_quick row seq dict_ with ⟨r, d, c⟩
      cases r <;> rfl

theorem populate_full_of_not_isnew (context : Instance) (load_path : Val) (row : Row)
    (state : Instance) (dict_ : Dict) (isnew loaded_instance populate_existing : Val)
    (populators : Populators) (hnew : PyObject_IsTrue isnew ≠ .ok true) :
    (populate_full context load_path row state dict_ isnew loaded_instance
      populate_existing populators).state = state ∧
    (populate_full context load_path row state dict_ isnew loaded_instance
      populate_existing populators).dict_ = dict_ ∧
    (populate_full context load_path row state dict_ isnew loaded_instance
      populate_existing populators).calls = [] := by
  unfold populate_full
  cases h : PyObject_IsTrue isnew with
  | error e => simp
  | ok b =>
    cases b with
    | false => simp
    | true => exact absurd h hnew

theorem attrs_load_options_frame (context : Instance) (load_path : Val) (state : Instance)
    (po : Val) (hpo : PyObject_GetAttrString context "propagate_options" = .ok po)
    (hfalse : PyObject_IsTrue po = .ok false) :
    PyObject_GetAttrString (populate_full_attrs context load_path state).2 "load_options"
      = PyObject_GetAttrString state "load_options" := by
  unfold populate_full_attrs
  simp only [hpo, hfalse, Bool.false_eq_true, if_false]
  repeat' split
  all_goals simp [getAttr_setAttr_other]

theorem attrs_propagate (context : Instance) (load_path : Val) (state : Instance)
    (po : Val) (hpo : PyObject_GetAttrString context "propagate_options" = .ok po)
    (htrue : PyObject_IsTrue po = .ok true)
    (hok : (populate_full_attrs context load_path state).1 = .ok ()) :
    PyObject_GetAttrString (populate_full_attrs context load_path state).2 "load_options"
      = .ok po ∧
    PyObject_GetAttrString (populate_full_attrs context load_path state).2 "load_path"
      = .ok load_path := by
  unfold populate_full_attrs at hok ⊢
  simp only [hpo, htrue, if_true, getAttr_setAttr_same] at hok ⊢
  split at hok
  · simp at hok
  · simp [getAttr_setAttr_other, getAttr_setAttr_same]

theorem attrs_runid (context : Instance) (load_path : Val) (state : Instance)
    (hok : (populate_full_attrs context load_path state).1 = .ok ()) :
    PyObject_GetAttrString (populate_full_attrs context load_path state).2 "runid"
      = PyObject_GetAttrString context "runid" := by
  unfold populate_full_attrs at hok ⊢
  split at hok
  · simp at hok
  · rename_i r hr
    simp only [hr]
    repeat' split
    all_goals simp [getAttr_setAttr_other, getAttr_setAttr_same]


/-! ## Checked properties -/

/-- C1 (amended): in a first-sighting call that completes without failure, every
`(key, getter)` pair of `populators["quick"]` whose key does not occur again later in the
list leaves `dict_[key] == getter(row)`, and the getters are called once each, on the row,
in list order. -/
theorem quick_pair_stored_unless_key_repeated (context : Instance) (load_path : Val)
    (row : Row) (state : Instance) (dict_ : Dict)
    (isnew loaded_instance populate_existing : Val) (populators : Populators)
    (pre post : List (String × Getter)) (key : String) (getter : Getter)
    (hnew : PyObject_IsTrue isnew = .ok true)
    (hok : (populate_full context load_path row state dict_ isnew loaded_instance
      populate_existing populators).ret = .ok .none)
    (hq : populators.quick = some (pre ++ (key, getter) :: post))
    (hlast : key ∉ post.map Prod.fst) :
    (∃ v, getter.call row = .ok v ∧
      PyDict_GetItem (populate_full context load_path row state dict_ isnew loaded_instance
        populate_existing populators).dict_ key = some v) ∧
    (populate_full context load_path row state dict_ isnew loaded_instance
      populate_existing populators).calls
      = (pre ++ (key, getter) :: post).map (getterEvent row) := by
  obtain ⟨hattrs, seq, hseq, hloop⟩ :=
    populate_full_ok_inv context load_path row state dict_ isnew loaded_instance
      populate_existing populators hnew hok
  rw [hq] at hseq
  cases hseq
  rw [populate_full_of_isnew context load_path row state dict_ isnew loaded_instance
    populate_existing populators _ hnew hq hattrs]
  exact ⟨quick_getItem_of_ok row pre post key getter dict_ hloop hlast,
    quick_calls_of_ok row _ dict_ hloop⟩

/-- Witness of C1 (amended): the second pair of `quickTwice` is stored, and both getters are
called in list order. -/
theorem quick_pair_stored_unless_key_repeated_witness :
    (∃ v, (constGetter 2 (.int 2)).call rowA = .ok v ∧
      PyDict_GetItem (populate_full contextPlain (.str "p") rowA stateFresh [] (.bool true)
        .none (.bool false) (quickOnly quickTwice)).dict_ "a" = some v) ∧
    (populate_full contextPlain (.str "p") rowA stateFresh [] (.bool true)
      .none (.bool false) (quickOnly quickTwice)).calls
      = ([("a", constGetter 1 (.int 1))] ++ ("a", constGetter 2 (.int 2)) :: []).map
          (getterEvent rowA) :=
  quick_pair_stored_unless_key_repeated contextPlain (.str "p") rowA stateFresh []
    (.bool true) .none (.bool false) (quickOnly quickTwice)
    [("a", constGetter 1 (.int 1))] [] "a" (constGetter 2 (.int 2)) rfl rfl rfl (by simp)

/-- C1 as stated fails when a key occurs in two pairs: the call completes, the pair
`("a", lambda r: 1)` is in `quick`, yet `dict_["a"]` is 2 afterwards. -/
theorem quick_repeated_key_keeps_last_value :
    (populate_full contextPlain (.str "p") rowA stateFresh [] (.bool true) .none (.bool false)
      (quickOnly quickTwice)).ret = .ok .none ∧
    ("a", constGetter 1 (.int 1)) ∈ quickTwice ∧
    (constGetter 1 (.int 1)).call rowA = .ok (.int 1) ∧
    PyDict_GetItem (populate_full contextPlain (.str "p") rowA stateFresh [] (.bool true)
      .none (.bool false) (quickOnly quickTwice)).dict_ "a" = some (.int 2) :=
  ⟨rfl, List.mem_cons_self _ _, rfl, rfl⟩

/-- C2: in a first-sighting call that completes without failure and whose
`context.propagate_options` is truthy, `state.load_options` ends as exactly that value and
`state.load_path` as exactly the `load_path` argument. -/
theorem propagate_options_reach_state (context : Instance) (load_path : Val)
    (row : Row) (state : Instance) (dict_ : Dict)
    (isnew loaded_instance populate_existing : Val) (populators : Populators) (po : Val)
    (hnew : PyObject_IsTrue isnew = .ok true)
    (hok : (populate_full context load_path row state dict_ isnew loaded_instance
      populate_existing populators).ret = .ok .none)
    (hpo : PyObject_GetAttrString context "propagate_options" = .ok po)
    (htrue : PyObject_IsTrue po = .ok true) :
    PyObject_GetAttrString (populate_full context load_path row state dict_ isnew
      loaded_instance populate_existing populators).state "load_options" = .ok po ∧
    PyObject_GetAttrString (populate_full context load_path row state dict_ isnew
      loaded_instance populate_existing populators).state "load_path" = .ok load_path := by
  obtain ⟨hattrs, -⟩ :=
    populate_full_ok_inv context load_path row state dict_ isnew loaded_instance
      populate_existing populators hnew hok
  rw [populate_full_state_of_isnew context load_path row state dict_ isnew loaded_instance
    populate_existing populators hnew]
  exact attrs_propagate context load_path state po hpo htrue hattrs

/-- Witness of C2: options `{1}` propagated to a fresh state, load path `"p"`. -/
theorem propagate_options_reach_state_witness :
    PyObject_GetAttrString (populate_full contextOpts (.str "p") rowA stateFresh []
      (.bool true) .none (.bool false) (quickOnly [("a", columnGetter 1 "a")])).state
      "load_options" = .ok (.opts [1]) ∧
    PyObject_GetAttrString (populate_full contextOpts (.str "p") rowA stateFresh []
      (.bool true) .none (.bool false) (quickOnly [("a", columnGetter 1 "a")])).state
      "load_path" = .ok (.str "p") :=
  propagate_options_reach_state contextOpts (.str "p") rowA stateFresh []
    (.bool true) .none (.bool false) (quickOnly [("a", columnGetter 1 "a")]) (.opts [1])
    rfl rfl rfl rfl

/-- C3: whatever `isnew` is and however the call ends, when `context.propagate_options` is
falsy `state.load_options` is after the call what it was before. -/
theorem load_options_kept_when_nothing_to_propagate (context : Instance) (load_path : Val)
    (row : Row) (state : Instance) (dict_ : Dict)
    (isnew loaded_instance populate_existing : Val) (populators : Populators) (po : Val)
    (hpo : PyObject_GetAttrString context "propagate_options" = .ok po)
    (hfalse : PyObject_IsTrue po = .ok false) :
    PyObject_GetAttrString (populate_full context load_path row state dict_ isnew
      loaded_instance populate_existing populators).state "load_options"
      = PyObject_GetAttrString state "load_options" := by
  by_cases hnew : PyObject_IsTrue isnew = .ok true
  · rw [populate_full_state_of_isnew context load_path row state dict_ isnew loaded_instance
      populate_existing populators hnew]
    exact attrs_load_options_frame context load_path state po hpo hfalse
  · rw [(populate_full_of_not_isnew context load_path row state dict_ isnew loaded_instance
      populate_existing populators hnew).1]

/-- Witness of C3: a state that carries load options keeps them when the context has
`propagate_options = None`. -/
theorem load_options_kept_when_nothing_to_propagate_witness :
    PyObject_GetAttrString contextPlain "propagate_options" = .ok .none ∧
    PyObject_IsTrue .none = .ok false ∧
    PyObject_GetAttrString (populate_full contextPlain (.str "p") rowA stateWithOptions []
      (.bool true) .none (.bool false) (quickOnly [("a", columnGetter 1 "a")])).state
      "load_options" = PyObject_GetAttrString stateWithOptions "load_options" :=
  ⟨rfl, rfl, load_options_kept_when_nothing_to_propagate contextPlain (.str "p") rowA
    stateWithOptions [] (.bool true) .none (.bool false)
    (quickOnly [("a", columnGetter 1 "a")]) .none rfl rfl⟩

/-! ## A failing getter -/

theorem quick_ok_of_all_ok (row : Row) (seq : List (String × Getter)) (d : Dict)
    (h : ∀ p ∈ seq, ∃ v, p.2.call row = .ok v) :
    (populate_full_quick row seq d).1 = .ok () := by
  induction seq generalizing d with
  | nil => rfl
  | cons hd tl ih =>
    obtain ⟨k, g⟩ := hd
    obtain ⟨v, hv⟩ := h (k, g) (List.mem_cons_self _ _)
    simp only at hv
    simp only [populate_full_quick, hv]
    exact ih _ (fun p hp => h p (List.mem_cons_of_mem _ hp))

theorem quick_of_first_failure (row : Row) (pre post : List (String × Getter))
    (k : String) (g : Getter) (d : Dict) (e : Failure)
    (hpre : ∀ p ∈ pre, ∃ v, p.2.call row = .ok v) (hfail : g.call row = .error e) :
    populate_full_quick row (pre ++ (k, g) :: post) d
      = (.error e, (populate_full_quick row pre d).2.1,
         (pre ++ [(k, g)]).map (getterEvent row)) := by
  induction pre generalizing d with
  | nil => simp [populate_full_quick, hfail, getterEvent]
  | cons hd tl ih =>
    obtain ⟨k1, g1⟩ := hd
    obtain ⟨v, hv⟩ := hpre (k1, g1) (List.mem_cons_self _ _)
    simp only at hv
    have h := ih (PyDict_SetItem d k1 v) (fun p hp => hpre p (List.mem_cons_of_mem _ hp))
    simp only [List.cons_append, populate_full_quick, hv, List.append_eq]
    rw [h]
    simp [getterEvent]

/-- C4 (amended): in a first-sighting call that reaches the `quick` loop, if the getter of
an entry raises after the getters of all earlier entries returned, the call fails with that
very exception, the calls made are exactly those of the earlier entries and of the failing
one, in order (no later getter is called), `dict_` holds `getter_j(row)` under the key of
every earlier entry `j` whose key is not assigned again by an entry between `j` and the
failing one, and `state.runid` is `context.runid`. -/
theorem failing_getter_aborts (context : Instance) (load_path : Val)
    (row : Row) (state : Instance) (dict_ : Dict)
    (isnew loaded_instance populate_existing : Val) (populators : Populators)
    (pre post : List (String × Getter)) (key : String) (getter : Getter) (e : Failure)
    (hnew : PyObject_IsTrue isnew = .ok true)
    (hattrs : (populate_full_attrs context load_path state).1 = .ok ())
    (hq : populators.quick = some (pre ++ (key, getter) :: post))
    (hpre : ∀ p ∈ pre, ∃ v, p.2.call row = .ok v)
    (hfail : getter.call row = .error e) :
    (populate_full context load_path row state dict_ isnew loaded_instance
      populate_existing populators).ret = .error e ∧
    (populate_full context load_path row state dict_ isnew loaded_instance
      populate_existing populators).calls = (pre ++ [(key, getter)]).map (getterEvent row) ∧
    (∀ (a b : List (String × Getter)) (kj : String) (gj : Getter),
      pre = a ++ (kj, gj) :: b → kj ∉ b.map Prod.fst →
      ∃ v, gj.call row = .ok v ∧
        PyDict_GetItem (populate_full context load_path row state dict_ isnew
          loaded_instance populate_existing populators).dict_ kj = some v) ∧
    PyObject_GetAttrString (populate_full context load_path row state dict_ isnew
      loaded_instance populate_existing populators).state "runid"
      = PyObject_GetAttrString context "runid" := by
  rw [populate_full_of_isnew context load_path row state dict_ isnew loaded_instance
    populate_existing populators _ hnew hq hattrs,
    quick_of_first_failure row pre post key getter dict_ e hpre hfail]
  refine ⟨rfl, rfl, ?_, attrs_runid context load_path state hattrs⟩
  intro a b kj gj hsplit hkj
  subst hsplit
  exact quick_getItem_of_ok row a b kj gj dict_ (quick_ok_of_all_ok row _ dict_ hpre) hkj

/-- Witness of C4 (amended): in `quickTwiceThenRaise` the third getter raises exception 9;
the second entry, the last one to assign `"a"`, is the one whose value is kept. -/
theorem failing_getter_aborts_witness :
    (populate_full contextPlain (.str "p") rowA stateFresh [] (.bool true) .none (.bool false)
      (quickOnly quickTwiceThenRaise)).ret = .error (.raised 9) ∧
    (populate_full contextPlain (.str "p") rowA stateFresh [] (.bool true) .none (.bool false)
      (quickOnly quickTwiceThenRaise)).calls
      = [.getter 1 rowA, .getter 2 rowA, .getter 3 rowA] ∧
    (∃ v, (constGetter 2 (.int 2)).call rowA = .ok v ∧
      PyDict_GetItem (populate_full contextPlain (.str "p") rowA stateFresh [] (.bool true)
        .none (.bool false) (quickOnly quickTwiceThenRaise)).dict_ "a" = some v) ∧
    PyObject_GetAttrString (populate_full contextPlain (.str "p") rowA stateFresh []
      (.bool true) .none (.bool false) (quickOnly quickTwiceThenRaise)).state "runid"
      = .ok (.int 7) :=
  have h := failing_getter_aborts contextPlain (.str "p") rowA stateFresh []
    (.bool true) .none (.bool false) (quickOnly quickTwiceThenRaise)
    [("a", constGetter 1 (.int 1)), ("a", constGetter 2 (.int 2))]
    [("c", constGetter 4 (.int 4))] "b" (raisingGetter 3 9) (.raised 9) rfl rfl rfl
    (by intro p hp; simp at hp; rcases hp with rfl | rfl <;> simp [constGetter]) rfl
  ⟨h.1, h.2.1,
    h.2.2.1 [("a", constGetter 1 (.int 1))] [] "a" (constGetter 2 (.int 2)) rfl (by simp),
    h.2.2.2⟩

/-- C4 as stated fails when two entries before the failing one share a key: the third getter
raises, the first entry `("a", lambda r: 1)` lies before it, yet `dict_["a"]` is 2. -/
theorem failing_getter_after_repeated_key :
    (populate_full contextPlain (.str "p") rowA stateFresh [] (.bool true) .none (.bool false)
      (quickOnly quickTwiceThenRaise)).ret = .error (.raised 9) ∧
    quickTwiceThenRaise.get? 0 = some ("a", constGetter 1 (.int 1)) ∧
    (raisingGetter 3 9).call rowA = .error (.raised 9) ∧
    (constGetter 1 (.int 1)).call rowA = .ok (.int 1) ∧
    PyDict_GetItem (populate_full contextPlain (.str "p") rowA stateFresh [] (.bool true)
      .none (.bool false) (quickOnly quickTwiceThenRaise)).dict_ "a" = some (.int 2) :=
  ⟨rfl, rfl, rfl, rfl, rfl⟩

/-! ## The end-to-end scenario and the `expire` keys -/

theorem attrs_of_nothing_to_propagate (context : Instance) (load_path : Val)
    (state : Instance) (r po lo : Val)
    (hr : PyObject_GetAttrString context "runid" = .ok r)
    (hpo : PyObject_GetAttrString context "propagate_options" = .ok po)
    (hpof : PyObject_IsTrue po = .ok false)
    (hlo : PyObject_GetAttrString state "load_options" = .ok lo)
    (hlof : PyObject_IsTrue lo = .ok false) :
    populate_full_attrs context load_path state
      = (.ok (), PyObject_SetAttrString state "runid" r) := by
  have h1 : PyObject_GetAttrString (PyObject_SetAttrString state "runid" r) "load_options"
      = .ok lo := by
    rw [getAttr_setAttr_other _ _ _ _ (by decide), hlo]
  unfold populate_full_attrs
  simp only [hr, hpo, hpof, Bool.false_eq_true, if_false, h1, hlof]

/-- C9 (amended): a first-sighting call whose context carries `runid` and a falsy
`propagate_options`, on a state whose `load_options` is falsy, with `quick = [(k, getter)]`
for a getter that returns, `expire`, `new` and `delayed` empty and `dict_` empty, completes
without failure, calls the getter once and leaves `dict_ == {k: getter(row)}`,
`state.runid == context.runid`, and `state.load_options` and `state.load_path` as they
were. -/
theorem single_quick_scenario (context : Instance) (load_path : Val)
    (row : Row) (state : Instance) (isnew loaded_instance populate_existing : Val)
    (existing : Option (List (String × Populator))) (k : String) (getter : Getter)
    (v r po lo : Val)
    (hnew : PyObject_IsTrue isnew = .ok true)
    (hr : PyObject_GetAttrString context "runid" = .ok r)
    (hpo : PyObject_GetAttrString context "propagate_options" = .ok po)
    (hpof : PyObject_IsTrue po = .ok false)
    (hlo : PyObject_GetAttrString state "load_options" = .ok lo)
    (hlof : PyObject_IsTrue lo = .ok false)
    (hg : getter.call row = .ok v) :
    (populate_full context load_path row state [] isnew loaded_instance populate_existing
      ⟨some [(k, getter)], some [], some [], some [], existing⟩).ret = .ok .none ∧
    (populate_full context load_path row state [] isnew loaded_instance populate_existing
      ⟨some [(k, getter)], some [], some [], some [], existing⟩).dict_ = [(k, v)] ∧
    (populate_full context load_path row state [] isnew loaded_instance populate_existing
      ⟨some [(k, getter)], some [], some [], some [], existing⟩).calls
      = [.getter getter.id row] ∧
    PyObject_GetAttrString (populate_full context load_path row state [] isnew
      loaded_instance populate_existing
      ⟨some [(k, getter)], some [], some [], some [], existing⟩).state "runid" = .ok r ∧
    PyObject_GetAttrString (populate_full context load_path row state [] isnew
      loaded_instance populate_existing
      ⟨some [(k, getter)], some [], some [], some [], existing⟩).state "load_options"
      = PyObject_GetAttrString state "load_options" ∧
    PyObject_GetAttrString (populate_full context load_path row state [] isnew
      loaded_instance populate_existing
      ⟨some [(k, getter)], some [], some [], some [], existing⟩).state "load_path"
      = PyObject_GetAttrString state "load_path" := by
  have hA := attrs_of_nothing_to_propagate context load_path state r po lo hr hpo hpof
    hlo hlof
  rw [populate_full_of_isnew context load_path row state [] isnew loaded_instance
    populate_existing ⟨some [(k, getter)], some [], some [], some [], existing⟩
    [(k, getter)] hnew rfl (by rw [hA])]
  simp only [hA, populate_full_quick, hg, PyDict_SetItem, Except.map]
  refine ⟨trivial, trivial, trivial, getAttr_setAttr_same _ _ _,
    getAttr_setAttr_other _ _ _ _ (by decide), getAttr_setAttr_other _ _ _ _ (by decide)⟩

/-- Witness of C9 (amended): the scenario `runid = 7`, `propagate_options = None`,
`quick = [("a", lambda r: r["a"])]`, row `{"a": 42}` on a state without load options. -/
theorem single_quick_scenario_witness :
    (populate_full contextPlain (.str "p") rowA stateFresh [] (.bool true) .none (.bool false)
      ⟨some [("a", columnGetter 1 "a")], some [], some [], some [], Option.none⟩).ret
      = .ok .none ∧
    (populate_full contextPlain (.str "p") rowA stateFresh [] (.bool true) .none (.bool false)
      ⟨some [("a", columnGetter 1 "a")], some [], some [], some [], Option.none⟩).dict_
      = [("a", .int 42)] ∧
    (populate_full contextPlain (.str "p") rowA stateFresh [] (.bool true) .none (.bool false)
      ⟨some [("a", columnGetter 1 "a")], some [], some [], some [], Option.none⟩).calls
      = [.getter (columnGetter 1 "a").id rowA] ∧
    PyObject_GetAttrString (populate_full contextPlain (.str "p") rowA stateFresh []
      (.bool true) .none (.bool false)
      ⟨some [("a", columnGetter 1 "a")], some [], some [], some [], Option.none⟩).state
      "runid" = .ok (.int 7) ∧
    PyObject_GetAttrString (populate_full contextPlain (.str "p") rowA stateFresh []
      (.bool true) .none (.bool false)
      ⟨some [("a", columnGetter 1 "a")], some [], some [], some [], Option.none⟩).state
      "load_options" = PyObject_GetAttrString stateFresh "load_options" ∧
    PyObject_GetAttrString (populate_full contextPlain (.str "p") rowA stateFresh []
      (.bool true) .none (.bool false)
      ⟨some [("a", columnGetter 1 "a")], some [], some [], some [], Option.none⟩).state
      "load_path" = PyObject_GetAttrString stateFresh "load_path" :=
  single_quick_scenario contextPlain (.str "p") rowA stateFresh (.bool true) .none
    (.bool false) Option.none "a" (columnGetter 1 "a") (.int 42) (.int 7) .none (.opts [])
    rfl rfl rfl rfl rfl rfl rfl

/-- C9 as stated fails on a state that already carries load options: in the scenario
(`runid = 7`, `propagate_options = None`, one quick getter, the other lists empty, `dict_`
empty) the call completes, and `state.load_path` changes from `"old"` to the `load_path`
argument `"p"`. -/
theorem single_quick_scenario_moves_load_path :
    (populate_full contextPlain (.str "p") rowA stateWithOptions [] (.bool true) .none
      (.bool false) (quickOnly [("a", columnGetter 1 "a")])).ret = .ok .none ∧
    PyObject_GetAttrString stateWithOptions "load_path" = .ok (.str "old") ∧
    PyObject_GetAttrString (populate_full contextPlain (.str "p") rowA stateWithOptions []
      (.bool true) .none (.bool false) (quickOnly [("a", columnGetter 1 "a")])).state
      "load_path" = .ok (.str "p") :=
  ⟨rfl, rfl, rfl⟩

/-- C6 (amended): in a first-sighting call that completes without failure with
`populate_existing` false, every key that was in `dict_` before the call, appears in
`populators["expire"]` and is not a key of `populators["quick"]` is still in `dict_` with
the same value. -/
theorem expire_key_kept_without_populate_existing (context : Instance) (load_path : Val)
    (row : Row) (state : Instance) (dict_ : Dict)
    (isnew loaded_instance populate_existing : Val) (populators : Populators)
    (quick : List (String × Getter)) (expire : List (String × Val)) (k : String) (v : Val)
    (hnew : PyObject_IsTrue isnew = .ok true)
    (hok : (populate_full context load_path row state dict_ isnew loaded_instance
      populate_existing populators).ret = .ok .none)
    (hpe : PyObject_IsTrue populate_existing = .ok false)
    (hq : populators.quick = some quick) (hx : populators.expire = some expire)
    (hbefore : PyDict_GetItem dict_ k = some v)
    (hexpire : k ∈ expire.map Prod.fst)
    (hquick : k ∉ quick.map Prod.fst) :
    PyDict_GetItem (populate_full context load_path row state dict_ isnew loaded_instance
      populate_existing populators).dict_ k = some v := by
  obtain ⟨hattrs, -⟩ :=
    populate_full_ok_inv context load_path row state dict_ isnew loaded_instance
      populate_existing populators hnew hok
  rw [populate_full_of_isnew context load_path row state dict_ isnew loaded_instance
    populate_existing populators _ hnew hq hattrs]
  simp only
  rw [quick_getItem_of_not_key row quick dict_ k hquick, hbefore]

/-- Witness of C6 (amended): `"z"` is in `dict_` and in `expire`, `quick` assigns `"a"`
only. -/
theorem expire_key_kept_without_populate_existing_witness :
    PyDict_GetItem (populate_full contextPlain (.str "p") rowA stateFresh [("z", .int 1)]
      (.bool true) .none (.bool false)
      ⟨some [("a", columnGetter 1 "a")], some [("z", .bool true)], some [], some [],
       some []⟩).dict_ "z" = some (.int 1) :=
  expire_key_kept_without_populate_existing contextPlain (.str "p") rowA stateFresh
    [("z", .int 1)] (.bool true) .none (.bool false)
    ⟨some [("a", columnGetter 1 "a")], some [("z", .bool true)], some [], some [], some []⟩
    [("a", columnGetter 1 "a")] [("z", .bool true)] "z" (.int 1)
    rfl rfl rfl rfl rfl rfl (by simp) (by simp)

/-- C6 as stated fails with `populate_existing` false when an `expire` key is also a `quick`
key: `dict_["a"]` was 1 before the call, `"a"` is listed in `expire`, the call completes, and
`dict_["a"]` is 2 afterwards. -/
theorem expire_key_overwritten_by_quick :
    (populate_full contextPlain (.str "p") rowA stateFresh [("a", .int 1)] (.bool true)
      .none (.bool false) quickAndExpireShareKey).ret = .ok .none ∧
    PyObject_IsTrue (.bool false) = .ok false ∧
    quickAndExpireShareKey.expire = some [("a", .bool false)] ∧
    PyDict_GetItem [("a", .int 1)] "a" = some (.int 1) ∧
    PyDict_GetItem (populate_full contextPlain (.str "p") rowA stateFresh [("a", .int 1)]
      (.bool true) .none (.bool false) quickAndExpireShareKey).dict_ "a" = some (.int 2) :=
  ⟨rfl, rfl, rfl, rfl, rfl⟩

/-! ## Where the C function stops short of the reference -/

/-- C5 at a repeat-sighting call (`isnew = False`) with `existing = [("e", p)]`: the C
function returns `None` with no delegate called and `dict_` untouched, whereas the reference
calls `p(state, dict_, row)` once, which stores `dict_["e"] = 3`. -/
theorem existing_populators_not_called :
    (populate_full contextPlain (.str "p") rowA stateFresh [] (.bool false) .none
      (.bool false) existingOne).ret = .ok .none ∧
    (populate_full contextPlain (.str "p") rowA stateFresh [] (.bool false) .none
      (.bool false) existingOne).calls = [] ∧
    (populate_full contextPlain (.str "p") rowA stateFresh [] (.bool false) .none
      (.bool false) existingOne).dict_ = [] ∧
    (_populate_full contextPlain (.str "p") rowA stateFresh [] (.bool false) .none
      (.bool false) existingOne).calls = [.populator 3 stateFresh [] rowA] ∧
    (_populate_full contextPlain (.str "p") rowA stateFresh [] (.bool false) .none
      (.bool false) existingOne).dict_ = [("e", .int 3)] :=
  ⟨rfl, rfl, rfl, rfl, rfl⟩

/-- C7 at a first-sighting call with `new = [("n", p1)]` and `delayed = [("d", p2)]`: the C
function completes with no delegate called and `dict_` untouched, whereas the reference calls
`p1` and then `p2`. -/
theorem new_and_delayed_populators_not_called :
    (populate_full contextPlain (.str "p") rowA stateFresh [] (.bool true) .none
      (.bool false) newAndDelayed).ret = .ok .none ∧
    (populate_full contextPlain (.str "p") rowA stateFresh [] (.bool true) .none
      (.bool false) newAndDelayed).calls = [] ∧
    (populate_full contextPlain (.str "p") rowA stateFresh [] (.bool true) .none
      (.bool false) newAndDelayed).dict_ = [] ∧
    (_populate_full contextPlain (.str "p") rowA stateFresh [] (.bool true) .none
      (.bool false) newAndDelayed).calls
      = [.populator 1 (PyObject_SetAttrString stateFresh "runid" (.int 7)) [] rowA,
         .populator 2 (PyObject_SetAttrString stateFresh "runid" (.int 7))
           [("n", .int 1)] rowA] ∧
    (_populate_full contextPlain (.str "p") rowA stateFresh [] (.bool true) .none
      (.bool false) newAndDelayed).dict_ = [("n", .int 1), ("d", .int 2)] :=
  ⟨rfl, rfl, rfl, rfl, rfl⟩

/-- C8 at populators that lack `"expire"`, `"new"`, `"delayed"` and `"existing"`: the C
function returns `None` both for a first sighting and for a repeat sighting, whereas the
reference raises `KeyError("expire")` and `KeyError("existing")`. -/
theorem missing_category_keys_not_reported :
    (populate_full contextPlain (.str "p") rowA stateFresh [] (.bool true) .none
      (.bool false) quickKeyOnly).ret = .ok .none ∧
    (populate_full contextPlain (.str "p") rowA stateFresh [] (.bool false) .none
      (.bool false) quickKeyOnly).ret = .ok .none ∧
    (_populate_full contextPlain (.str "p") rowA stateFresh [] (.bool true) .none
      (.bool false) quickKeyOnly).ret = .error (.keyError "expire") ∧
    (_populate_full contextPlain (.str "p") rowA stateFresh [] (.bool false) .none
      (.bool false) quickKeyOnly).ret = .error (.keyError "existing") :=
  ⟨rfl, rfl, rfl, rfl⟩

/-- C10 at a first-sighting call whose populators lack `"quick"`: the C function returns
`NULL` with no exception set (a `SystemError` for the caller), whereas the reference, cut
after the quick loop or not, raises `KeyError("quick")`. -/
theorem missing_quick_key_returns_null_without_exception :
    (populate_full contextPlain (.str "p") rowA stateFresh [] (.bool true) .none
      (.bool false) quickKeyMissing).ret = .error .systemError ∧
    (Py.run (_populate_full_quick contextPlain (.str "p") rowA quickKeyMissing)
      stateFresh []).ret = .error (.keyError "quick") ∧
    (_populate_full contextPlain (.str "p") rowA stateFresh [] (.bool true) .none
      (.bool false) quickKeyMissing).ret = .error (.keyError "quick") :=
  ⟨rfl, rfl, rfl⟩

/-! ## The C function against the reference -/

theorem bind_run_ok {α β : Type} (m : Py α) (f : α → Py β) (w w1 : World) (a : α)
    (h : m w = (.ok a, w1)) : (m >>= f) w = f a w1 := by
  show (match m w with
    | (.ok a, w1) => f a w1
    | (.error e, w1) => (.error e, w1)) = f a w1
  rw [h]

theorem bind_run_error {α β : Type} (m : Py α) (f : α → Py β) (w w1 : World) (e : Failure)
    (h : m w = (.error e, w1)) : (m >>= f) w = (.error e, w1) := by
  show (match m w with
    | (.ok a, w1) => f a w1
    | (.error e, w1) => (.error e, w1)) = (.error e, w1)
  rw [h]

theorem forEach_quick (row : Row) (body : String × Getter → Py Unit)
    (seq : List (String × Getter)) (st : Instance) (d : Dict) (c : List CallEvent)
    (hbody : ∀ p w, body p w = (Py.callGetter p.2 row >>= fun v => Py.setItem p.1 v) w) :
    Py.forEach seq body ⟨st, d, c⟩
      = ((populate_full_quick row seq d).1,
         ⟨st, (populate_full_quick row seq d).2.1, c ++ (populate_full_quick row seq d).2.2⟩) := by
  induction seq generalizing d c with
  | nil => simp [Py.forEach, populate_full_quick, pure]
  | cons hd tl ih =>
    obtain ⟨k, g⟩ := hd
    cases hg : g.call row with
    | error e =>
      have h1 : body (k, g) ⟨st, d, c⟩ = (.error e, ⟨st, d, c ++ [.getter g.id row]⟩) := by
        rw [hbody]
        exact bind_run_error _ _ _ _ _ (by simp [Py.callGetter, hg])
      rw [Py.forEach, bind_run_error _ _ _ _ _ h1]
      simp [populate_full_quick, hg]
    | ok v =>
      have h1 : body (k, g) ⟨st, d, c⟩
          = (.ok (), ⟨st, PyDict_SetItem d k v, c ++ [.getter g.id row]⟩) := by
        rw [hbody, bind_run_ok _ _ _ ⟨st, d, c ++ [.getter g.id row]⟩ v
          (by simp [Py.callGetter, hg])]
        rfl
      rw [Py.forEach, bind_run_ok _ _ _ _ _ h1, ih]
      simp [populate_full_quick, hg]

/-- In a first-sighting call the C function leaves the state, the dictionary and the call log
exactly as the reference cut after its quick loop does, and returns the same result whenever
`populators` has the key `"quick"`. -/
theorem populate_full_matches_reference_quick (context : Instance) (load_path : Val)
    (row : Row) (state : Instance) (dict_ : Dict)
    (isnew loaded_instance populate_existing : Val) (populators : Populators)
    (hnew : PyObject_IsTrue isnew = .ok true) :
    (populate_full context load_path row state dict_ isnew loaded_instance
      populate_existing populators).state
      = (Py.run (_populate_full_quick context load_path row populators) state dict_).state ∧
    (populate_full context load_path row state dict_ isnew loaded_instance
      populate_existing populators).dict_
      = (Py.run (_populate_full_quick context load_path row populators) state dict_).dict_ ∧
    (populate_full context load_path row state dict_ isnew loaded_instance
      populate_existing populators).calls
      = (Py.run (_populate_full_quick context load_path row populators) state dict_).calls ∧
    (populators.quick ≠ Option.none →
      (populate_full context load_path row state dict_ isnew loaded_instance
        populate_existing populators).ret
        = (Py.run (_populate_full_quick context load_path row populators) state dict_).ret) := by
  unfold populate_full _populate_full_quick populate_full_attrs Py.run
  simp only [hnew, bind, Py.eval, Py.setState, Py.getState, Except.bind]
  cases hr : PyObject_GetAttrString context "runid" with
  | error e => exact ⟨rfl, rfl, rfl, fun _ => rfl⟩
  | ok r =>
    simp only []
    cases hpo : PyObject_GetAttrString context "propagate_options" with
    | error e => exact ⟨rfl, rfl, rfl, fun _ => rfl⟩
    | ok po =>
      simp only []
      cases hb : PyObject_IsTrue po with
      | error e => exact ⟨rfl, rfl, rfl, fun _ => rfl⟩
      | ok b =>
        simp only []
        cases b with
        | true =>
          simp only [if_true, getAttr_setAttr_same, hb]
          cases hq : populators.quick with
          | none => exact ⟨rfl, rfl, rfl, fun h => absurd rfl h⟩
          | some seq =>
            simp only [Py.subscript, pure]
            rw [forEach_quick row]
            · rcases populate_full_quick row seq dict_ with ⟨r, d, c⟩
              cases r <;> exact ⟨rfl, rfl, rfl, fun _ => rfl⟩
            · exact fun _ _ => rfl
        | false =>
          simp only [Bool.false_eq_true, if_false]
          cases hlo : PyObject_GetAttrString (PyObject_SetAttrString state "runid" r)
              "load_options" with
          | error e => exact ⟨rfl, rfl, rfl, fun _ => rfl⟩
          | ok lo =>
            simp only []
            cases hb2 : PyObject_IsTrue lo with
            | error e => exact ⟨rfl, rfl, rfl, fun _ => rfl⟩
            | ok b2 =>
              cases b2 with
              | true =>
                simp only [if_true]
                cases hq : populators.quick with
                | none => exact ⟨rfl, rfl, rfl, fun h => absurd rfl h⟩
                | some seq =>
                  simp only [Py.subscript, pure]
                  rw [forEach_quick row]
                  · rcases populate_full_quick row seq dict_ with ⟨r, d, c⟩
                    cases r <;> exact ⟨rfl, rfl, rfl, fun _ => rfl⟩
                  · exact fun _ _ => rfl
              | false =>
                simp only [Bool.false_eq_true, if_false]
                cases hq : populators.quick with
                | none => exact ⟨rfl, rfl, rfl, fun h => absurd rfl h⟩
                | some seq =>
                  simp only [Py.subscript, pure]
                  rw [forEach_quick row]
                  · rcases populate_full_quick row seq dict_ with ⟨r, d, c⟩
                    cases r <;> exact ⟨rfl, rfl, rfl, fun _ => rfl⟩
                  · exact fun _ _ => rfl


/-- On a first-sighting call whose `quick` list is present and whose `expire`, `new` and
`delayed` lists are empty, the C function and the whole reference end alike (the reference
also tests the truth of `populate_existing`, which is assumed not to raise). -/
theorem populate_full_matches_reference_when_rest_empty (context : Instance)
    (load_path : Val) (row : Row) (state : Instance) (dict_ : Dict)
    (isnew loaded_instance populate_existing : Val) (populators : Populators)
    (seq : List (String × Getter)) (b : Bool)
    (hnew : PyObject_IsTrue isnew = .ok true)
    (hpe : PyObject_IsTrue populate_existing = .ok b)
    (hq : populators.quick = some seq) (hx : populators.expire = some [])
    (hn : populators.new = some []) (hd : populators.delayed = some []) :
    (populate_full context load_path row state dict_ isnew loaded_instance
      populate_existing populators).ret
      = (_populate_full context load_path row state dict_ isnew loaded_instance
          populate_existing populators).ret ∧
    (populate_full context load_path row state dict_ isnew loaded_instance
      populate_existing populators).state
      = (_populate_full context load_path row state dict_ isnew loaded_instance
          populate_existing populators).state ∧
    (populate_full context load_path row state dict_ isnew loaded_instance
      populate_existing populators).dict_
      = (_populate_full context load_path row state dict_ isnew loaded_instance
          populate_existing populators).dict_ ∧
    (populate_full context load_path row state dict_ isnew loaded_instance
      populate_existing populators).calls
      = (_populate_full context load_path row state dict_ isnew loaded_instance
          populate_existing populators).calls := by
  unfold populate_full _populate_full _populate_full_body populate_full_attrs Py.run
  simp only [hnew, hpe, hq, hx, hn, hd, bind, Py.eval, Py.setState, Py.getState, Except.bind,
    Py.subscript, pure, if_true]
  cases hr : PyObject_GetAttrString context "runid" with
  | error e => exact ⟨rfl, rfl, rfl, rfl⟩
  | ok r =>
    simp only []
    cases hpo : PyObject_GetAttrString context "propagate_options" with
    | error e => exact ⟨rfl, rfl, rfl, rfl⟩
    | ok po =>
      simp only []
      cases hb : PyObject_IsTrue po with
      | error e => exact ⟨rfl, rfl, rfl, rfl⟩
      | ok b1 =>
        simp only []
        cases b1 with
        | true =>
          simp only [if_true, getAttr_setAttr_same, hb]
          rw [forEach_quick row]
          · rcases populate_full_quick row seq dict_ with ⟨r, d, c⟩
            cases r <;> cases b <;> exact ⟨rfl, rfl, rfl, rfl⟩
          · exact fun _ _ => rfl
        | false =>
          simp only [Bool.false_eq_true, if_false]
          cases hlo : PyObject_GetAttrString (PyObject_SetAttrString state "runid" r)
              "load_options" with
          | error e => exact ⟨rfl, rfl, rfl, rfl⟩
          | ok lo =>
            simp only []
            cases hb2 : PyObject_IsTrue lo with
            | error e => exact ⟨rfl, rfl, rfl, rfl⟩
            | ok b2 =>
              cases b2 with
              | true =>
                simp only [if_true]
                rw [forEach_quick row]
                · rcases populate_full_quick row seq dict_ with ⟨r, d, c⟩
                  cases r <;> cases b <;> exact ⟨rfl, rfl, rfl, rfl⟩
                · exact fun _ _ => rfl
              | false =>
                simp only [Bool.false_eq_true, if_false]
                rw [forEach_quick row]
                · rcases populate_full_quick row seq dict_ with ⟨r, d, c⟩
                  cases r <;> cases b <;> exact ⟨rfl, rfl, rfl, rfl⟩
                · exact fun _ _ => rfl

/-- On a repeat-sighting call the C function returns `None`, calls no delegate and changes
neither the state nor the dictionary. -/
theorem populate_full_repeat_sighting_is_noop (context : Instance)
    (load_path : Val) (row : Row) (state : Instance) (dict_ : Dict)
    (isnew loaded_instance populate_existing : Val) (populators : Populators)
    (hnew : PyObject_IsTrue isnew = .ok false) :
    (populate_full context load_path row state dict_ isnew loaded_instance
      populate_existing populators).ret = .ok .none ∧
    (populate_full context load_path row state dict_ isnew loaded_instance
      populate_existing populators).state = state ∧
    (populate_full context load_path row state dict_ isnew loaded_instance
      populate_existing populators).dict_ = dict_ ∧
    (populate_full context load_path row state dict_ isnew loaded_instance
      populate_existing populators).calls = [] := by
  unfold populate_full
  rw [hnew]
  exact ⟨rfl, rfl, rfl, rfl⟩

end Loader
